import Mathlib

/-
Verification of the calculation-history service against its design document.

Shallow embedding of the Python sources:
  - src/utils/math_utils.py : the in-memory Calculator (add_and_record,
    get_history); Python ints are arbitrary precision, embedded as Int;
    the mutable object is embedded by explicit state passing.
  - src/main.py : the calc_add request handler; its JSON response dict is
    embedded as an association list of string keys to JSON values, in the
    order the dict literal writes them.
  - src/ml/trainer.py : train_and_save_model, embedded as a transition on
    an explicit filesystem-artifact state (which artifacts exist).
  - src/models.py declares the Calculation entity (id, a, b, result, name,
    timestamp) for the database-backed History Store; the service module
    that appends/lists those records is not among the sources, so that
    store is modelled from the design document where a claim needs it.
-/

/-- JSON scalar values appearing in the embedded response payloads. -/
inductive JsonVal where
  | jint (n : Int)
  | jstr (s : String)
deriving DecidableEq

/-- Embeds `add` from src/utils/math_utils.py. -/
def add (a b : Int) : Int := a + b

/-- Embeds the `Calculator` object state of src/utils/math_utils.py:
a `name` and a `history` list of strings. -/
structure Calculator where
  name : String
  history : List String
deriving DecidableEq

/-- Embeds `Calculator.__init__` (fresh object with empty history). -/
def Calculator.init (name : String) : Calculator :=
  { name := name, history := [] }

/-- Embeds `Calculator.add_and_record` from src/utils/math_utils.py:
computes `result = a + b`, appends the string `"{a} + {b} = {result}"` to
the history, and returns the result. Mutation is embedded by returning the
updated state alongside the return value. -/
def Calculator.add_and_record (c : Calculator) (a b : Int) : Int × Calculator :=
  let result := a + b
  (result, { c with history := c.history ++ [s!"{a} + {b} = {result}"] })

/-- Embeds `Calculator.get_history` from src/utils/math_utils.py: returns
the entire history list. -/
def Calculator.get_history (c : Calculator) : List String :=
  c.history

/-- Embeds the module-level `calc = Calculator("FastAPI Global Calculator")`
of src/main.py (`calc` is a Lean keyword, hence the name `globalCalc`). -/
def globalCalc : Calculator :=
  Calculator.init "FastAPI Global Calculator"

/-- Embeds the `AddRequest` Pydantic model of src/main.py: required integer
fields `a`, `b` and an optional string `name` defaulting to None. -/
structure AddRequest where
  a : Int
  b : Int
  name : Option String
deriving DecidableEq

/-- Embeds the `calc_add` handler of src/main.py.  It calls
`calc.add_and_record(request.a, request.b)`, builds the greeting
`f", {request.name}" if request.name else ""` (Python truthiness: both
`None` and the empty string give no greeting), and returns the response
dict with keys result, operation, history_count, message, where
history_count is `len(calc.history)` after the append.  The dict is
embedded as an association list in literal order; the updated calculator
state is returned alongside. -/
def calc_add (c : Calculator) (request : AddRequest) : List (String × JsonVal) × Calculator :=
  match request with
  | ⟨a, b, nm⟩ =>
    let p := Calculator.add_and_record c a b
    let result := p.1
    let c2 := p.2
    let greeting :=
      match nm with
      | some n => if n = "" then "" else s!", {n}"
      | none => ""
    ([("result", JsonVal.jint result),
      ("operation", JsonVal.jstr s!"{a} + {b}"),
      ("history_count", JsonVal.jint (c2.history.length : Int)),
      ("message", JsonVal.jstr s!"Calculation successful{greeting}!")],
     c2)

/-- Looks a key up in an embedded response payload (first binding wins,
matching Python dict semantics where keys are unique). -/
def payloadGet (p : List (String × JsonVal)) (k : String) : Option JsonVal :=
  (p.find? (fun kv => kv.1 == k)).map (fun kv => kv.2)

/-- Runs a sequence of `add_and_record` calls (one per `(a, b)` pair) on a
calculator state, returning the final state. -/
def runAdds (c : Calculator) : List (Int × Int) → Calculator
  | [] => c
  | ab :: rest => runAdds (Calculator.add_and_record c ab.1 ab.2).2 rest

/-- Filesystem state seen by src/ml/trainer.py: whether the model artifact
(ml/pipeline.pkl) and the dataset (ml/spam.csv) exist. -/
structure MLState where
  modelExists : Bool
  dataExists : Bool
deriving DecidableEq

/-- What `train_and_save_model` did: loaded the saved artifact, or trained
a fresh pipeline. In both cases it returns a usable pipeline. -/
inductive TrainOutcome where
  | loadedExisting
  | trainedFromScratch
deriving DecidableEq

/-- Embeds `train_and_save_model` from src/ml/trainer.py: if the model
artifact exists it is loaded and returned; otherwise the dataset is
downloaded if absent, a pipeline is trained synchronously, saved to
MODEL_PATH, and returned.  Its return type has no error alternative: the
function always yields a pipeline (the module even runs it at import time,
`pipeline = train_and_save_model()`). -/
def train_and_save_model (s : MLState) : TrainOutcome × MLState :=
  if s.modelExists then
    (TrainOutcome.loadedExisting, s)
  else
    (TrainOutcome.trainedFromScratch, { modelExists := true, dataExists := true })

/-- A persisted calculation record, following the `Calculation` entity
declared in src/models.py: surrogate integer id (primary key), operands
`a` and `b`, `result`, optional `name`, and a `timestamp` assigned at
insertion time (embedded as a Nat instant). -/
structure CalculationRec where
  id : Nat
  a : Int
  b : Int
  result : Int
  name : Option String
  timestamp : Nat
deriving DecidableEq

/-- Modelled from the spec: the database-backed History Store.  The
service module that operates on the `Calculation` table is not among the
sources (src/models.py and src/database.py only declare the entity and the
engine), so the store is modelled from the design document: an append-only
collection of records together with the storage layer's auto-incrementing
identity counter; records are kept in insertion order. -/
structure Store where
  records : List CalculationRec
  nextId : Nat
deriving DecidableEq

/-- Modelled from the spec: History Store `append(a, b, result, name)`
creates and persists a new record with a fresh identity (the storage
layer's atomic auto-increment) and the current timestamp `now`; insertion
timestamps are taken from a monotone clock, so later appends never carry
smaller timestamps. -/
def Store.append (s : Store) (a b result : Int) (name : Option String) (now : Nat) :
    CalculationRec × Store :=
  let r : CalculationRec := ⟨s.nextId, a, b, result, name, now⟩
  (r, ⟨s.records ++ [r], s.nextId + 1⟩)

/-- Modelled from the spec: History Store `count()`, the total number of
records ever appended. -/
def Store.count (s : Store) : Nat :=
  s.records.length

/-- Modelled from the spec: History Store `list(limit)`, up to `limit`
most recent records ordered by timestamp descending with ties broken by
insertion order newest first.  With records kept in insertion order and
stamped by a monotone clock, that order is exactly reversed insertion
order, so the result is the first `limit` elements of the reversed
record list. -/
def Store.list (s : Store) (limit : Nat) : List CalculationRec :=
  s.records.reverse.take limit

/-- Modelled from the spec: the Calculation Service `addAndRecord(a, b,
name)` over the database-backed store — computes `result = a + b` and
persists via History Store append. -/
def addAndRecordDB (s : Store) (a b : Int) (name : Option String) (now : Nat) :
    CalculationRec × Store :=
  s.append a b (a + b) name now

/-- Timestamps of the records of a store, in insertion order. -/
def Store.timestamps (s : Store) : List Nat :=
  s.records.map (fun r => r.timestamp)

/-- `ToString` on a string is the identity (helper for reading off the
rendered history entries). -/
lemma toString_string (s : String) : toString s = s := rfl

/-- Helper: running a sequence of add_and_record calls grows the history
by exactly the number of calls. -/
lemma runAdds_length (ops : List (Int × Int)) : ∀ c : Calculator,
    (runAdds c ops).history.length = c.history.length + ops.length := by
  induction ops with
  | nil => intro c; simp [runAdds]
  | cons ab rest ih =>
      intro c
      simp only [runAdds, ih, Calculator.add_and_record, List.length_append,
        List.length_cons, List.length_nil]
      omega

/-- Claim C1: for every calculator state and all integers `a`, `b`,
`add_and_record(a, b)` returns `a + b`, and the `result` field of the
`calc_add` response payload equals `a + b`. -/
theorem c1_add_result (c : Calculator) (a b : Int) (nm : Option String) :
    (Calculator.add_and_record c a b).1 = a + b ∧
    payloadGet (calc_add c ⟨a, b, nm⟩).1 "result" = some (JsonVal.jint (a + b)) :=
  ⟨rfl, rfl⟩

/-- Claim C2: each `add_and_record` call appends exactly one entry to the
history, so after any sequence of `n` successful calls the history length
(the `history_count` source, `len(calc.history)`) equals the initial
length plus `n`. -/
theorem c2_history_count_adds (c : Calculator) (a b : Int) (ops : List (Int × Int)) :
    ((Calculator.add_and_record c a b).2).history.length = c.history.length + 1 ∧
    (runAdds c ops).history.length = c.history.length + ops.length := by
  refine ⟨?_, runAdds_length ops c⟩
  simp [Calculator.add_and_record]

/-- Claim C3 counterexample: the code's success message opens with
"Calculation successful", not "Calculation saved forever" — for the
claim's own concrete inputs (5, 3, "Alice") and (5, 3, None) the payload
message is "Calculation successful, Alice!" resp. "Calculation
successful!", and differs from the message the claim states; moreover at
the provided empty-string name (5, 3, "") the message is the bare
"Calculation successful!", not the suffixed ", !" form the claim's rule
assigns to every provided name. -/
theorem c3_message_counterexample :
    payloadGet (calc_add globalCalc ⟨5, 3, some "Alice"⟩).1 "message"
        = some (JsonVal.jstr "Calculation successful, Alice!") ∧
    payloadGet (calc_add globalCalc ⟨5, 3, none⟩).1 "message"
        = some (JsonVal.jstr "Calculation successful!") ∧
    payloadGet (calc_add globalCalc ⟨5, 3, some "Alice"⟩).1 "message"
        ≠ some (JsonVal.jstr "Calculation saved forever, Alice!") ∧
    payloadGet (calc_add globalCalc ⟨5, 3, none⟩).1 "message"
        ≠ some (JsonVal.jstr "Calculation saved forever!") ∧
    payloadGet (calc_add globalCalc ⟨5, 3, some ""⟩).1 "message"
        = some (JsonVal.jstr "Calculation successful!") ∧
    payloadGet (calc_add globalCalc ⟨5, 3, some ""⟩).1 "message"
        ≠ some (JsonVal.jstr "Calculation saved forever, !") :=
  ⟨by decide, by decide, by decide, by decide, by decide, by decide⟩

/-- Claim C3 amended: the message field of the calc_add success payload is
"Calculation successful" suffixed with ", NAME!" when a nonempty name is
provided and with "!" when no name is provided; the handler tests Python
truthiness, so a provided empty-string name also yields the bare
"Calculation successful!". -/
theorem c3_message_amended (c : Calculator) (a b : Int) (n : String) (hn : n ≠ "") :
    payloadGet (calc_add c ⟨a, b, some n⟩).1 "message"
        = some (JsonVal.jstr ("Calculation successful, " ++ n ++ "!")) ∧
    payloadGet (calc_add c ⟨a, b, none⟩).1 "message"
        = some (JsonVal.jstr "Calculation successful!") ∧
    payloadGet (calc_add c ⟨a, b, some ""⟩).1 "message"
        = some (JsonVal.jstr "Calculation successful!") := by
  refine ⟨?_, rfl, rfl⟩
  have h : ("Calculation successful" : String) ++ ", " = "Calculation successful, " := by
    decide
  simp [calc_add, payloadGet, hn, toString_string, String.append_assoc]
  rw [← h, String.append_assoc]

/-- Witness for C3 amended at (5, 3, "Alice"). -/
theorem c3_message_amended_witness :
    "Alice" ≠ "" ∧
    (payloadGet (calc_add globalCalc ⟨5, 3, some "Alice"⟩).1 "message"
        = some (JsonVal.jstr ("Calculation successful, " ++ "Alice" ++ "!")) ∧
     payloadGet (calc_add globalCalc ⟨5, 3, none⟩).1 "message"
        = some (JsonVal.jstr "Calculation successful!") ∧
     payloadGet (calc_add globalCalc ⟨5, 3, some ""⟩).1 "message"
        = some (JsonVal.jstr "Calculation successful!")) :=
  ⟨by decide, c3_message_amended globalCalc 5 3 "Alice" (by decide)⟩

/-- Claim C4 counterexample: the calc_add success payload has no `id` and
no `timestamp` field — for the accepted request (5, 3, "Alice") both
lookups come back empty (the handler returns only result, operation,
history_count and message; the in-memory history stores plain strings, so
there is no persisted record to take an id or timestamp from). -/
theorem c4_payload_fields_counterexample :
    payloadGet (calc_add globalCalc ⟨5, 3, some "Alice"⟩).1 "id" = none ∧
    payloadGet (calc_add globalCalc ⟨5, 3, some "Alice"⟩).1 "timestamp" = none :=
  ⟨by decide, by decide⟩

/-- Claim C4 amended: for every accepted addition request the success
payload contains exactly the fields result, operation, history_count and
message (no id, no timestamp), where operation is the string
"A + B" and history_count is the history length taken immediately
after the append (one more than before the call). -/
theorem c4_payload_fields_amended (c : Calculator) (a b : Int) (nm : Option String) :
    ((calc_add c ⟨a, b, nm⟩).1).map Prod.fst
        = ["result", "operation", "history_count", "message"] ∧
    payloadGet (calc_add c ⟨a, b, nm⟩).1 "operation"
        = some (JsonVal.jstr (toString a ++ " + " ++ toString b)) ∧
    payloadGet (calc_add c ⟨a, b, nm⟩).1 "history_count"
        = some (JsonVal.jint (((calc_add c ⟨a, b, nm⟩).2).history.length : Int)) ∧
    ((calc_add c ⟨a, b, nm⟩).2).history.length = c.history.length + 1 := by
  refine ⟨rfl, ?_, rfl, ?_⟩
  · simp [calc_add, payloadGet, toString_string, String.append_assoc]
  · simp [calc_add, Calculator.add_and_record]

/-- Claim C5 counterexample: on a state with no trained model artifact,
`train_and_save_model` does not fail with a ModelNotReady error — it
trains a pipeline synchronously (downloading the dataset), saves the
artifact, and returns the pipeline; the module has no error outcome at
all and even invokes this function at import time. -/
theorem c5_trains_counterexample :
    train_and_save_model ⟨false, false⟩
        = (TrainOutcome.trainedFromScratch, ⟨true, true⟩) ∧
    (train_and_save_model ⟨false, false⟩).1 ≠ TrainOutcome.loadedExisting :=
  ⟨by decide, by decide⟩

/-- Claim C5 amended: when no trained model artifact exists,
`train_and_save_model` trains synchronously from scratch and leaves both
the model artifact and the dataset on disk; when the artifact exists it is
loaded unchanged.  No ModelNotReady error path exists in the module. -/
theorem c5_trains_amended (s : MLState) (h : s.modelExists = false) :
    train_and_save_model s = (TrainOutcome.trainedFromScratch, ⟨true, true⟩) ∧
    ∀ s2 : MLState, s2.modelExists = true →
      train_and_save_model s2 = (TrainOutcome.loadedExisting, s2) := by
  constructor
  · simp [train_and_save_model, h]
  · intro s2 h2
    simp [train_and_save_model, h2]

/-- Witness for C5 amended at the empty filesystem state. -/
theorem c5_trains_amended_witness :
    (MLState.mk false false).modelExists = false ∧
    (train_and_save_model ⟨false, false⟩
        = (TrainOutcome.trainedFromScratch, ⟨true, true⟩) ∧
     ∀ s2 : MLState, s2.modelExists = true →
       train_and_save_model s2 = (TrainOutcome.loadedExisting, s2)) :=
  ⟨rfl, c5_trains_amended ⟨false, false⟩ rfl⟩

/-- Claim C6: for every store whose insertion timestamps come from a
monotone clock and every positive limit, `list(limit)` returns records in
non-increasing timestamp order (newest first) and never more than `limit`
records. -/
theorem c6_list_limit (s : Store) (limit : Nat) (_hpos : 0 < limit)
    (hmono : s.timestamps.Pairwise (fun x y => x ≤ y)) :
    ((s.list limit).map (fun r => r.timestamp)).Pairwise (fun x y => y ≤ x) ∧
    (s.list limit).length ≤ limit := by
  constructor
  · have h1 : (s.list limit).map (fun r => r.timestamp)
        = ((s.records.map (fun r => r.timestamp)).reverse).take limit := by
      simp [Store.list]
    have h2 : ((s.records.map (fun r => r.timestamp)).reverse).Pairwise
        (fun x y => y ≤ x) :=
      List.pairwise_reverse.mpr hmono
    rw [h1]
    exact h2.sublist (List.take_sublist _ _)
  · simp [Store.list]

/-- A concrete two-record store used to instantiate the C6 theorem. -/
def sampleStore : Store :=
  ⟨[⟨0, 1, 2, 3, none, 10⟩, ⟨1, 4, 5, 9, some "Bob", 20⟩], 2⟩

/-- Witness for C6 at a concrete two-record store with limit 1. -/
theorem c6_list_limit_witness :
    0 < 1 ∧
    sampleStore.timestamps.Pairwise (fun x y => x ≤ y) ∧
    (((sampleStore.list 1).map (fun r => r.timestamp)).Pairwise (fun x y => y ≤ x) ∧
     (sampleStore.list 1).length ≤ 1) :=
  ⟨by decide, by decide, c6_list_limit sampleStore 1 (by decide) (by decide)⟩

/-- Claim C7 counterexample: what `append` writes and `get_history`
returns is a bare formatted string, not a record carrying the four fields
— two writes that differ only in the request name (5, 3, "Alice") versus
(5, 3, None) produce the identical retrieved entry "5 + 3 = 8", so the
name value is not preserved through the store. -/
theorem c7_roundtrip_counterexample :
    Calculator.get_history (calc_add globalCalc ⟨5, 3, some "Alice"⟩).2
        = ["5 + 3 = 8"] ∧
    Calculator.get_history (calc_add globalCalc ⟨5, 3, none⟩).2
        = ["5 + 3 = 8"] ∧
    (calc_add globalCalc ⟨5, 3, some "Alice"⟩).2
        = (calc_add globalCalc ⟨5, 3, none⟩).2 :=
  ⟨by decide, by decide, by decide⟩

/-- Claim C7 amended: the entry written by `add_and_record(a, b)` and
retrieved via `get_history` is the formatted string "A + B = A+B", which
renders a, b and the result; no name is stored, so only those three values
survive the round trip. -/
theorem c7_roundtrip_amended (c : Calculator) (a b : Int) :
    (Calculator.get_history ((Calculator.add_and_record c a b).2)).getLast?
        = some (toString a ++ " + " ++ toString b ++ " = " ++ toString (a + b)) := by
  simp [Calculator.get_history, Calculator.add_and_record, toString_string,
    String.append_assoc]

/-- Claim C8: addAndRecord is not idempotent — from any store state, two
successive addAndRecord(2, 2, None) calls create two records with two
distinct ids (hence two distinct records), and the store's count grows by
exactly two. -/
theorem c8_not_idempotent (s : Store) (t1 t2 : Nat) :
    (addAndRecordDB s 2 2 none t1).1.id
        ≠ (addAndRecordDB (addAndRecordDB s 2 2 none t1).2 2 2 none t2).1.id ∧
    (addAndRecordDB s 2 2 none t1).1
        ≠ (addAndRecordDB (addAndRecordDB s 2 2 none t1).2 2 2 none t2).1 ∧
    ((addAndRecordDB (addAndRecordDB s 2 2 none t1).2 2 2 none t2).2).count
        = s.count + 2 := by
  refine ⟨?_, ?_, ?_⟩
  · simp [addAndRecordDB, Store.append]
  · intro h
    have hid := congrArg CalculationRec.id h
    simp [addAndRecordDB, Store.append] at hid
  · simp [addAndRecordDB, Store.append, Store.count]

/-- Claim C9: `add_and_record(a, b)` changes nothing but the history —
the calculator's name is unchanged and the new history is exactly the old
history with the one formatted entry appended (so every pre-existing entry
is preserved in place). -/
theorem c9_frame (c : Calculator) (a b : Int) :
    ((Calculator.add_and_record c a b).2).name = c.name ∧
    ((Calculator.add_and_record c a b).2).history
        = c.history ++ [toString a ++ " + " ++ toString b ++ " = " ++ toString (a + b)] :=
  ⟨rfl, by simp [Calculator.add_and_record, toString_string, String.append_assoc]⟩

/-- Claim C10: `get_history` returns the complete history with no limit
applied, in insertion order (oldest first, each new entry appended at the
end), and the entry recorded by `add_and_record(a, b)` is the formatted
string "A + B = A+B" rather than a structured record. -/
theorem c10_get_history (c : Calculator) (a b : Int) :
    Calculator.get_history c = c.history ∧
    Calculator.get_history ((Calculator.add_and_record c a b).2)
        = Calculator.get_history c
            ++ [toString a ++ " + " ++ toString b ++ " = " ++ toString (a + b)] :=
  ⟨rfl, by
    simp [Calculator.get_history, Calculator.add_and_record, toString_string,
      String.append_assoc]⟩
